import Mathlib

/-!
Verification development for the admin-panel repository (browser CRUD console).

The JavaScript source is shallowly embedded: JS scalar values become the
inductive `JsValue`, JS objects used as record/value maps become association
lists (`ValueMap`), `localStorage` becomes the two-key `Storage` record, and
side effects (location assignments, HTTP requests, storage writes) are
returned explicitly as data.  Every definition is translated from a named
source function; the doc comment of each names its origin.
-/

set_option autoImplicit false

/-- JS scalar values as they occur in this codebase: strings, numbers
(only integral numbers are relevant to the verified properties), booleans,
`null` and `undefined`. -/
inductive JsValue where
  | vStr (s : String)
  | vNum (n : Int)
  | vBool (b : Bool)
  | vNull
  | vUndefined
deriving DecidableEq, Repr

/-- JS truthiness on `JsValue`: `""`, `0`, `false`, `null`, `undefined`
are falsy, everything else truthy. -/
def truthy : JsValue → Bool
  | JsValue.vStr s => decide (s ≠ "")
  | JsValue.vNum n => decide (n ≠ 0)
  | JsValue.vBool b => b
  | JsValue.vNull => false
  | JsValue.vUndefined => false

/-- JS `a || b`: returns `a` when truthy, else `b`. -/
def jsOr (a b : JsValue) : JsValue :=
  if truthy a then a else b

/-- JS string coercion (template literals, `String(x)`). -/
def jsToString : JsValue → String
  | JsValue.vStr s => s
  | JsValue.vNum n => toString n
  | JsValue.vBool b => if b then "true" else "false"
  | JsValue.vNull => "null"
  | JsValue.vUndefined => "undefined"

/-- A JS object used as a record / value map: association list from
property name to value.  Keys are unique in every object the code builds. -/
abbrev ValueMap : Type := List (String × JsValue)

/-- Property read returning `none` for an absent key (first binding wins,
as in a JS object with unique keys). -/
def getVal : ValueMap → String → Option JsValue
  | [], _ => none
  | (k, v) :: rest, key => if k = key then some v else getVal rest key

/-- JS property access `m[key]`: an absent key reads as `undefined`. -/
def getProp (m : ValueMap) (key : String) : JsValue :=
  (getVal m key).getD JsValue.vUndefined

/-- JS object spread with a computed key, `\x7b...m, [key]: v\x7d`: every
other binding is kept, `key` is bound to `v`. -/
def objSet : ValueMap → String → JsValue → ValueMap
  | [], key, v => [(key, v)]
  | (k, w) :: rest, key, v =>
      if k = key then (key, v) :: rest else (k, w) :: objSet rest key v

theorem getVal_objSet (m : ValueMap) (key k : String) (v : JsValue) :
    getVal (objSet m key v) k = if k = key then some v else getVal m k := by
  induction m with
  | nil =>
      by_cases h : k = key
      · subst h
        simp [objSet, getVal]
      · simp [objSet, getVal, h, Ne.symm h]
  | cons hd tl ih =>
      obtain ⟨a, w⟩ := hd
      by_cases hk : a = key
      · subst hk
        by_cases h : k = a
        · subst h
          simp [objSet, getVal]
        · simp [objSet, getVal, h, Ne.symm h]
      · by_cases h : a = k
        · subst h
          simp [objSet, getVal, hk, Ne.symm hk]
        · simp [objSet, getVal, hk, h, ih]

/-! ## Form component (src/components/Form.js) -/

/-- The fields of the DOM change event destructured by `Form.handleChange`:
`const \x7b name, value, type, checked \x7d = e.target`. -/
structure ChangeEvent where
  name : String
  value : String
  type : String
  checked : Bool
deriving DecidableEq, Repr

/-- `Form.handleChange`, new-scalar computation:
`type === "checkbox" ? checked : value`. -/
def fieldValue (e : ChangeEvent) : JsValue :=
  if e.type = "checkbox" then JsValue.vBool e.checked else JsValue.vStr e.value

/-- `Form.handleChange`: the map passed to the caller's `onChange`,
`\x7b ...values, [name]: fieldValue \x7d`.  The component keeps no copy of
`values`; in this pure embedding the input map is untouched by
construction. -/
def handleChange (values : ValueMap) (e : ChangeEvent) : ValueMap :=
  objSet values e.name (fieldValue e)

/-- `Form` rendering, value of a non-checkbox control:
`value=\x7bvalues[field.name] || ""\x7d`. -/
def displayedValue (values : ValueMap) (name : String) : JsValue :=
  jsOr (getProp values name) (JsValue.vStr "")

/-- `Form` rendering, checked state of a checkbox control:
`checked=\x7bvalues[field.name] || false\x7d`, coerced to a boolean by the
DOM property. -/
def displayedChecked (values : ValueMap) (name : String) : Bool :=
  truthy (jsOr (getProp values name) (JsValue.vBool false))

/-- Claim C2: for every previous value map and every single control change
event on field `name` with new scalar `v` (the checked boolean for a
checkbox control, otherwise the typed string), `Form.handleChange` hands the
caller's `onChange` a map equal to the previous one except that `name` now
maps to `v`.  The previous map is not mutated (the embedding is pure, as is
the JS spread) and the component holds no internal copy of the data. -/
theorem C2_change_event (values : ValueMap) (e : ChangeEvent) (k : String) :
    (getVal (handleChange values e) k =
      if k = e.name then some (fieldValue e) else getVal values k) ∧
    (e.type = "checkbox" → fieldValue e = JsValue.vBool e.checked) ∧
    (e.type ≠ "checkbox" → fieldValue e = JsValue.vStr e.value) := by
  refine ⟨getVal_objSet values e.name k (fieldValue e), ?_, ?_⟩
  · intro h
    simp [fieldValue, h]
  · intro h
    simp [fieldValue, h]

theorem C2_change_event_witness :
    getVal (handleChange [("a", JsValue.vStr "x")]
      ⟨"b", "v", "checkbox", true⟩) "b" = some (JsValue.vBool true) ∧
    getVal (handleChange [("a", JsValue.vStr "x")]
      ⟨"b", "v", "checkbox", true⟩) "a" = some (JsValue.vStr "x") := by
  have h := C2_change_event [("a", JsValue.vStr "x")] ⟨"b", "v", "checkbox", true⟩
  constructor
  · have h1 := (h "b").1
    have h2 := (h "b").2.1 (by decide)
    rw [h1, h2]
    decide
  · have h1 := (h "a").1
    rw [h1]
    decide

/-- Claim C10: any falsy stored value (`0`, `false`, the empty string,
`null`) and an absent key alike render as the empty string in a
non-checkbox control and as unchecked in a checkbox control, so rendering
does not distinguish a stored falsy scalar from a missing key; yet a change
event on another field emits a map built from the stored values, not the
displayed ones. -/
theorem C10_falsy_rendering (values : ValueMap) (nm : String) :
    (truthy (getProp values nm) = false →
      displayedValue values nm = JsValue.vStr "" ∧
      displayedChecked values nm = false) ∧
    (getVal values nm = none → displayedValue values nm = JsValue.vStr "") ∧
    (getVal values nm = some (JsValue.vNum 0) →
      displayedValue values nm = JsValue.vStr "") ∧
    (∀ (e : ChangeEvent) (k : String), k ≠ e.name →
      getVal (handleChange values e) k = getVal values k) := by
  refine ⟨?_, ?_, ?_, ?_⟩
  · intro h
    constructor
    · simp [displayedValue, jsOr, h]
    · have hz : jsOr (getProp values nm) (JsValue.vBool false) = JsValue.vBool false := by
        simp [jsOr, h]
      simp [displayedChecked, hz, truthy]
  · intro h
    simp [displayedValue, getProp, h, jsOr, truthy]
  · intro h
    simp [displayedValue, getProp, h, jsOr, truthy]
  · intro e k hk
    rw [handleChange, getVal_objSet]
    simp [hk]

theorem C10_falsy_rendering_witness :
    displayedValue [("a", JsValue.vNum 0)] "a" = JsValue.vStr "" ∧
    displayedValue [] "a" = JsValue.vStr "" ∧
    displayedChecked [("a", JsValue.vBool false)] "a" = false ∧
    getVal (handleChange [("a", JsValue.vNum 0)]
      ⟨"b", "7", "number", false⟩) "a" = some (JsValue.vNum 0) := by
  refine ⟨?_, ?_, ?_, ?_⟩
  · exact (C10_falsy_rendering [("a", JsValue.vNum 0)] "a").2.2.1 (by decide)
  · exact (C10_falsy_rendering [] "a").2.1 (by decide)
  · exact ((C10_falsy_rendering [("a", JsValue.vBool false)] "a").1 (by decide)).2
  · exact (C10_falsy_rendering [("a", JsValue.vNum 0)] "a").2.2.2
      ⟨"b", "7", "number", false⟩ "a" (by decide)

/-! ## Table component (src/components/Table.js) -/

/-- A column passed to `Table`: either a `ColumnDescriptor` object
`\x7baccessor, header\x7d` or a bare key string (the code reads
`col.accessor || col` and `col.header || col`). -/
inductive Column where
  | desc (accessor header : String)
  | bare (s : String)
deriving DecidableEq, Repr

/-- `col.accessor || col`: the key used to read the cell value.  When the
accessor is falsy the fallback is the column object itself, which JS
coerces to the string "[object Object]" when used as a property key. -/
def colKey : Column → String
  | Column.desc accessor _ => if accessor = "" then "[object Object]" else accessor
  | Column.bare s => s

/-- `col.header || col`: the rendered header text, with the same fallback
coercion as `colKey`. -/
def colHeader : Column → String
  | Column.desc _ header =>
      if header = "" then "[object Object]" else header
  | Column.bare s => s

/-- An `ActionDescriptor` passed to `Table`: `\x7blabel, handler\x7d`.  The
click handler is an opaque row callback; only the rendered button (its
label) is part of the rendered structure, so the handler is carried as an
uninterpreted tag. -/
structure ActionDesc where
  label : String
  handlerTag : Nat
deriving DecidableEq, Repr

/-- Cell rendering in `Table`: `typeof row[key] === "object" ?
JSON.stringify(row[key]) : row[key]`.  Within the embedded scalar universe
only `null` has `typeof` "object"; `JSON.stringify(null)` is the string
"null". -/
def renderCell (row : ValueMap) (c : Column) : JsValue :=
  let v := getProp row (colKey c)
  match v with
  | JsValue.vNull => JsValue.vStr "null"
  | _ => v

/-- One rendered `<tr>` of the table body: its data cells, and the actions
cell with one button label per action exactly when `actions` was supplied. -/
structure RenderedRow where
  cells : List JsValue
  actionsCell : Option (List String)
deriving DecidableEq, Repr

/-- The rendered table: header-row cells and body rows. -/
structure RenderedTable where
  headerCells : List String
  bodyRows : List RenderedRow
deriving DecidableEq, Repr

/-- `Table` (src/components/Table.js): one header cell per column plus an
"Actions" header exactly when `actions` is supplied (a supplied empty array
is truthy in JS, hence `Option` rather than emptiness models the
`actions && ...` guards); one body row per data row; per body row one cell
per column and, when `actions` is supplied, one actions cell holding one
button per `ActionDescriptor`. -/
def renderTable (columns : List Column) (data : List ValueMap)
    (actions : Option (List ActionDesc)) : RenderedTable :=
  { headerCells :=
      columns.map colHeader ++
        (match actions with
         | some _ => ["Actions"]
         | none => [])
    bodyRows :=
      data.map (fun row =>
        { cells := columns.map (renderCell row)
          actionsCell := actions.map (fun acts => acts.map ActionDesc.label) }) }

/-- Claim C7: for every column sequence and row sequence, `Table` renders
exactly `data.length` body rows; each body row has exactly
`columns.length` data cells, plus one actions cell (and one extra header
cell) exactly when an actions sequence is supplied; each actions cell
holds one button per `ActionDescriptor`. -/
theorem C7_table_shape (columns : List Column) (data : List ValueMap)
    (actions : Option (List ActionDesc)) :
    ((renderTable columns data actions).bodyRows.length = data.length) ∧
    (∀ r, r ∈ (renderTable columns data actions).bodyRows →
      r.cells.length = columns.length) ∧
    (∀ acts, actions = some acts →
      (renderTable columns data actions).headerCells.length =
        columns.length + 1 ∧
      ∀ r, r ∈ (renderTable columns data actions).bodyRows →
        r.actionsCell = some (acts.map ActionDesc.label) ∧
        (acts.map ActionDesc.label).length = acts.length) ∧
    (actions = none →
      (renderTable columns data actions).headerCells.length = columns.length ∧
      ∀ r, r ∈ (renderTable columns data actions).bodyRows →
        r.actionsCell = none) := by
  refine ⟨?_, ?_, ?_, ?_⟩
  · simp [renderTable]
  · intro r hr
    simp [renderTable] at hr
    obtain ⟨row, _, rfl⟩ := hr
    simp
  · intro acts hacts
    subst hacts
    refine ⟨by simp [renderTable], ?_⟩
    intro r hr
    simp [renderTable] at hr
    obtain ⟨row, _, rfl⟩ := hr
    simp
  · intro hnone
    subst hnone
    refine ⟨by simp [renderTable], ?_⟩
    intro r hr
    simp [renderTable] at hr
    obtain ⟨row, _, rfl⟩ := hr
    simp

theorem C7_table_shape_witness :
    (renderTable [Column.bare "a", Column.desc "b" "B"]
      [[("a", JsValue.vNum 1)], [("b", JsValue.vStr "x")], []]
      (some [⟨"Edit", 0⟩])).bodyRows.length = 3 ∧
    (renderTable [Column.bare "a", Column.desc "b" "B"]
      [[("a", JsValue.vNum 1)], [("b", JsValue.vStr "x")], []]
      (some [⟨"Edit", 0⟩])).headerCells.length = 3 := by
  have h := C7_table_shape [Column.bare "a", Column.desc "b" "B"]
    [[("a", JsValue.vNum 1)], [("b", JsValue.vStr "x")], []]
    (some [⟨"Edit", 0⟩])
  exact ⟨h.1, (h.2.2.1 [⟨"Edit", 0⟩] rfl).1⟩

/-! ## Durable storage and the per-entity API wrapper modules -/

/-- The two durable `localStorage` keys the application uses, "token" and
"user_login".  `none` models an absent key (`getItem` returning `null`). -/
structure Storage where
  token : Option String
  userLogin : Option String
deriving DecidableEq, Repr

/-- JS falsiness of a `getItem` result: absent (`null`) or the empty
string. -/
def strFalsy : Option String → Bool
  | none => true
  | some s => decide (s = "")

/-- Template-literal rendering of a `getItem` result: `null` prints as the
string "null". -/
def itemToString : Option String → String
  | none => "null"
  | some s => s

/-- One HTTP request as built by the wrappers.  URLs are written relative
to `API_BASE_URL` (src/config.js), which every wrapper prefixes
uniformly. -/
structure Request where
  method : String
  url : String
  headers : List (String × String)
deriving DecidableEq, Repr

/-- Observable effects of one wrapper operation: the location assignments
performed (in source order; every assignment in these wrappers happens
before the request, since `getAuthHeaders` and the guards run first) and
the HTTP request issued, if any. -/
structure OpTrace where
  redirects : List String
  request : Option Request
deriving DecidableEq, Repr

/-- `mappingBranchAPI.getAuthHeaders`: reads the token, assigns
`window.location.href = "/login"` when it is falsy, and in all cases
returns a config whose `Authorization` value interpolates the raw
`getItem` result (so an absent token yields the literal "Bearer null"). -/
def mb_getAuthHeaders (s : Storage) : List String × List (String × String) :=
  (if strFalsy s.token then ["/login"] else [],
   [("Content-Type", "application/json"),
    ("Authorization", "Bearer " ++ itemToString s.token)])

/-- The dropship wrapper's `getAuthHeaders` (second module of
src/api/enterpriseApi.js, `dropshipEnterpriseApi`): same token read,
conditional redirect and interpolated header as the mapping-branch
wrapper. -/
def ds_getAuthHeaders (s : Storage) : List String × List (String × String) :=
  (if strFalsy s.token then ["/login"] else [],
   [("Content-Type", "application/json"),
    ("Authorization", "Bearer " ++ itemToString s.token)])

/-- `developerApi.getAuthToken`: redirects and returns `null` when the
stored token is falsy, else returns the token. -/
def dev_getAuthToken (s : Storage) : List String × Option String :=
  if strFalsy s.token then (["/login"], none) else ([], s.token)

/-- `developerApi.getAuthHeaders`: a full header config when
`getAuthToken` yields a token, the empty config `\x7b\x7d` otherwise. -/
def dev_getAuthHeaders (s : Storage) : List String × List (String × String) :=
  match dev_getAuthToken s with
  | (r, some t) =>
      (r, [("Content-Type", "application/json"),
           ("Authorization", "Bearer " ++ t)])
  | (r, none) => (r, [])

/-- Every operation exported by the three per-entity wrapper modules
(`mappingBranchAPI.js`, `developerApi.js`, `enterpriseApi.js` with its
plain-enterprise and dropship halves), logouts aside. -/
inductive ApiOp where
  | mbCreateMappingBranch
  | devGetSetting
  | devUpdateSetting
  | devGetDataFormats
  | devAddDataFormat
  | dsGetEnterprises
  | dsGetEnterpriseByCode
  | dsCreateEnterprise
  | dsUpdateEnterprise
  | entGetEnterprises
  | entGetEnterpriseByCode
  | entCreateEnterprise
  | entUpdateEnterprise
  | entGetMappingBranches
  | entCreateMappingBranch
deriving DecidableEq, Repr

/-- Call-site arguments of an operation: the path parameter and the JSON
payload, where the operation takes them. -/
structure OpArgs where
  code : String
  data : ValueMap
deriving DecidableEq

/-- The effect of running one wrapper operation against a storage state:
direct translation of each exported function.  `devGetSetting` and
`devUpdateSetting` first guard on `user_login` (redirect and return with
no request when it is falsy); `devUpdateSetting` also returns silently on
an empty payload; all other operations issue their request
unconditionally. -/
def runOp (op : ApiOp) (s : Storage) (a : OpArgs) : OpTrace :=
  match op with
  | ApiOp.mbCreateMappingBranch =>
      let (r, h) := mb_getAuthHeaders s
      ⟨r, some ⟨"POST", "/mapping_branch/", h⟩⟩
  | ApiOp.devGetSetting =>
      if strFalsy s.userLogin then ⟨["/login"], none⟩
      else
        let (r, h) := dev_getAuthHeaders s
        ⟨r, some ⟨"GET", "/developer/settings/" ++ itemToString s.userLogin, h⟩⟩
  | ApiOp.devUpdateSetting =>
      if strFalsy s.userLogin then ⟨["/login"], none⟩
      else if a.data.isEmpty then ⟨[], none⟩
      else
        let (r, h) := dev_getAuthHeaders s
        ⟨r, some ⟨"PUT", "/developer/settings/" ++ itemToString s.userLogin, h⟩⟩
  | ApiOp.devGetDataFormats =>
      let (r, h) := dev_getAuthHeaders s
      ⟨r, some ⟨"GET", "/data_formats", h⟩⟩
  | ApiOp.devAddDataFormat =>
      let (r, h) := dev_getAuthHeaders s
      ⟨r, some ⟨"POST", "/data_formats", h⟩⟩
  | ApiOp.dsGetEnterprises =>
      let (r, h) := ds_getAuthHeaders s
      ⟨r, some ⟨"GET", "/dropship/enterprises/", h⟩⟩
  | ApiOp.dsGetEnterpriseByCode =>
      let (r, h) := ds_getAuthHeaders s
      ⟨r, some ⟨"GET", "/dropship/enterprises/" ++ a.code, h⟩⟩
  | ApiOp.dsCreateEnterprise =>
      let (r, h) := ds_getAuthHeaders s
      ⟨r, some ⟨"POST", "/dropship/enterprises/", h⟩⟩
  | ApiOp.dsUpdateEnterprise =>
      let (r, h) := ds_getAuthHeaders s
      ⟨r, some ⟨"PUT", "/dropship/enterprises/" ++ a.code, h⟩⟩
  | ApiOp.entGetEnterprises =>
      ⟨[], some ⟨"GET", "/enterprise/settings/", []⟩⟩
  | ApiOp.entGetEnterpriseByCode =>
      ⟨[], some ⟨"GET", "/enterprise/settings/" ++ a.code, []⟩⟩
  | ApiOp.entCreateEnterprise =>
      ⟨[], some ⟨"POST", "/enterprise/settings/", []⟩⟩
  | ApiOp.entUpdateEnterprise =>
      ⟨[], some ⟨"PUT", "/enterprise/settings/" ++ a.code,
        [("Content-Type", "application/json")]⟩⟩
  | ApiOp.entGetMappingBranches =>
      ⟨[], some ⟨"GET", "/mapping_branch/" ++ a.code, []⟩⟩
  | ApiOp.entCreateMappingBranch =>
      ⟨[], some ⟨"POST", "/mapping_branch/", []⟩⟩

/-- The backend endpoint (method, path pattern) each operation targets. -/
def endpointOf : ApiOp → String × String
  | ApiOp.mbCreateMappingBranch => ("POST", "/mapping_branch/")
  | ApiOp.devGetSetting => ("GET", "/developer/settings/:login")
  | ApiOp.devUpdateSetting => ("PUT", "/developer/settings/:login")
  | ApiOp.devGetDataFormats => ("GET", "/data_formats")
  | ApiOp.devAddDataFormat => ("POST", "/data_formats")
  | ApiOp.dsGetEnterprises => ("GET", "/dropship/enterprises/")
  | ApiOp.dsGetEnterpriseByCode => ("GET", "/dropship/enterprises/:code")
  | ApiOp.dsCreateEnterprise => ("POST", "/dropship/enterprises/")
  | ApiOp.dsUpdateEnterprise => ("PUT", "/dropship/enterprises/:code")
  | ApiOp.entGetEnterprises => ("GET", "/enterprise/settings/")
  | ApiOp.entGetEnterpriseByCode => ("GET", "/enterprise/settings/:code")
  | ApiOp.entCreateEnterprise => ("POST", "/enterprise/settings/")
  | ApiOp.entUpdateEnterprise => ("PUT", "/enterprise/settings/:code")
  | ApiOp.entGetMappingBranches => ("GET", "/mapping_branch/:code")
  | ApiOp.entCreateMappingBranch => ("POST", "/mapping_branch/")

/-- Whether the operation's source code attaches an Authorization config
(calls some `getAuthHeaders`). -/
def attachesAuth : ApiOp → Bool
  | ApiOp.mbCreateMappingBranch => true
  | ApiOp.devGetSetting => true
  | ApiOp.devUpdateSetting => true
  | ApiOp.devGetDataFormats => true
  | ApiOp.devAddDataFormat => true
  | ApiOp.dsGetEnterprises => true
  | ApiOp.dsGetEnterpriseByCode => true
  | ApiOp.dsCreateEnterprise => true
  | ApiOp.dsUpdateEnterprise => true
  | ApiOp.entGetEnterprises => false
  | ApiOp.entGetEnterpriseByCode => false
  | ApiOp.entCreateEnterprise => false
  | ApiOp.entUpdateEnterprise => false
  | ApiOp.entGetMappingBranches => false
  | ApiOp.entCreateMappingBranch => false

/-- All wrapper operations. -/
def allApiOps : List ApiOp :=
  [ApiOp.mbCreateMappingBranch, ApiOp.devGetSetting, ApiOp.devUpdateSetting,
   ApiOp.devGetDataFormats, ApiOp.devAddDataFormat, ApiOp.dsGetEnterprises,
   ApiOp.dsGetEnterpriseByCode, ApiOp.dsCreateEnterprise,
   ApiOp.dsUpdateEnterprise, ApiOp.entGetEnterprises,
   ApiOp.entGetEnterpriseByCode, ApiOp.entCreateEnterprise,
   ApiOp.entUpdateEnterprise, ApiOp.entGetMappingBranches,
   ApiOp.entCreateMappingBranch]

/-- An operation requires authentication when some wrapper in the codebase
attaches an Authorization config to the same backend endpoint.  In
particular `POST /mapping_branch/` is authenticated (the mapping-branch
wrapper authenticates it), so `enterpriseApi.createMappingBranch`, which
targets the same endpoint, is an operation on an authenticated endpoint. -/
def requiresAuth (op : ApiOp) : Bool :=
  (allApiOps.filter attachesAuth).any
    (fun o => decide (endpointOf o = endpointOf op))

/-- Claim C1 as stated: every wrapper operation on an authenticated
endpoint carries `Authorization: Bearer t` when a token `t` is stored, and
assigns the `/login` redirect when no token is stored. -/
def C1_statement : Prop :=
  ∀ op : ApiOp, requiresAuth op = true →
    ∀ (s : Storage) (a : OpArgs),
      (∀ t, s.token = some t →
        ∀ req, (runOp op s a).request = some req →
          ("Authorization", "Bearer " ++ t) ∈ req.headers) ∧
      (s.token = none →
        ∀ req, (runOp op s a).request = some req →
          (runOp op s a).redirects = ["/login"])

/-- Claim C1 fails: `enterpriseApi.createMappingBranch` targets
`POST /mapping_branch/` — the very endpoint `mappingBranchAPI` attaches a
bearer token to — yet with token "tok" stored it issues the request with
no headers at all, and with no token it never redirects. -/
theorem C1_counterexample : ¬ C1_statement := by
  intro h
  have hmem :=
    (h ApiOp.entCreateMappingBranch (by decide)
      ⟨some "tok", some "dev"⟩ ⟨"", []⟩).1 "tok" rfl
      ⟨"POST", "/mapping_branch/", []⟩ rfl
  simp at hmem

/-- Claim C1 amended: the guarantee holds exactly for the operations whose
source attaches an auth config (all `developerApi` data operations,
`mappingBranchAPI.createMappingBranch`, the four dropship operations):
with a nonempty token `t` stored, any request they issue carries
`Authorization: Bearer t`; with no token stored, any request they issue is
preceded by the `/login` location assignment.  The six plain
`enterpriseApi` operations attach no Authorization header and never
redirect, whatever the stored token. -/
theorem C1_amended (op : ApiOp) (s : Storage) (a : OpArgs) :
    (attachesAuth op = true →
      (∀ t, s.token = some t → t ≠ "" →
        ∀ req, (runOp op s a).request = some req →
          ("Authorization", "Bearer " ++ t) ∈ req.headers) ∧
      (s.token = none →
        ∀ req, (runOp op s a).request = some req →
          (runOp op s a).redirects = ["/login"])) ∧
    (attachesAuth op = false →
      (runOp op s a).redirects = [] ∧
      ∀ req, (runOp op s a).request = some req →
        ∀ v, ("Authorization", v) ∉ req.headers) := by
  constructor
  · intro hop
    constructor
    · intro t ht hne req hreq
      cases op <;>
        first
        | exact absurd hop (by decide)
        | (simp only [runOp] at hreq
           try split_ifs at hreq
           all_goals try simp_all [mb_getAuthHeaders, ds_getAuthHeaders,
             dev_getAuthHeaders, dev_getAuthToken, itemToString, strFalsy]
           all_goals (subst hreq; simp))
    · intro hnone req hreq
      cases op <;>
        first
        | exact absurd hop (by decide)
        | (simp only [runOp] at hreq ⊢
           try split_ifs at hreq ⊢
           all_goals simp_all [mb_getAuthHeaders, ds_getAuthHeaders,
             dev_getAuthHeaders, dev_getAuthToken, itemToString, strFalsy])
  · intro hop
    constructor
    · cases op <;>
        first
        | exact absurd hop (by decide)
        | simp [runOp]
    · intro req hreq v
      cases op <;>
        first
        | exact absurd hop (by decide)
        | (simp only [runOp] at hreq
           try simp_all
           all_goals (subst hreq; simp))

theorem C1_amended_witness :
    ("Authorization", "Bearer " ++ "tok") ∈
      Request.headers ⟨"POST", "/mapping_branch/",
        [("Content-Type", "application/json"),
         ("Authorization", "Bearer tok")]⟩ ∧
    (runOp ApiOp.entGetEnterprises ⟨some "tok", some "dev"⟩ ⟨"", []⟩).redirects
      = [] := by
  have h := C1_amended ApiOp.mbCreateMappingBranch
    ⟨some "tok", some "dev"⟩ ⟨"", []⟩
  have h2 := C1_amended ApiOp.entGetEnterprises
    ⟨some "tok", some "dev"⟩ ⟨"", []⟩
  refine ⟨?_, ((h2.2) rfl).1⟩
  exact (h.1 rfl).1 "tok" rfl (by decide)
    ⟨"POST", "/mapping_branch/",
      [("Content-Type", "application/json"), ("Authorization", "Bearer tok")]⟩
    (by decide)

/-- Claim C9 as stated: with no token in durable storage, every
token-checking wrapper operation still issues its HTTP request (the
assigned redirect does not abort the call). -/
def C9_statement : Prop :=
  ∀ op : ApiOp, attachesAuth op = true →
    ∀ (s : Storage) (a : OpArgs), s.token = none →
      (runOp op s a).request.isSome = true ∧
      (runOp op s a).redirects = ["/login"]

/-- Claim C9 fails on one operation: `developerApi.getSetting` guards on
`user_login` before touching the token, so on a fresh storage (neither key
present) it assigns the redirect and returns without issuing any
request. -/
theorem C9_counterexample : ¬ C9_statement := by
  intro h
  have hsome := (h ApiOp.devGetSetting rfl ⟨none, none⟩ ⟨"", []⟩ rfl).1
  simp [runOp, strFalsy] at hsome

/-- Claim C9 amended: with no stored token, the mapping-branch and
dropship operations issue their request carrying the literal header
"Authorization: Bearer null" after assigning the `/login` redirect, and
the data-format operations issue theirs with no Authorization header at
all (`getAuthHeaders` returned the empty config); `developerApi`'s
getSetting/updateSetting behave the same way only once their own guards
pass (a truthy stored `user_login`, and a nonempty payload for
updateSetting) — when a guard fails they return without issuing a request
(getSetting still assigning the redirect, updateSetting's empty-payload
return assigning none). -/
theorem C9_amended (s : Storage) (a : OpArgs) (hnone : s.token = none) :
    runOp ApiOp.mbCreateMappingBranch s a =
      ⟨["/login"], some ⟨"POST", "/mapping_branch/",
        [("Content-Type", "application/json"),
         ("Authorization", "Bearer null")]⟩⟩ ∧
    runOp ApiOp.dsGetEnterprises s a =
      ⟨["/login"], some ⟨"GET", "/dropship/enterprises/",
        [("Content-Type", "application/json"),
         ("Authorization", "Bearer null")]⟩⟩ ∧
    runOp ApiOp.dsGetEnterpriseByCode s a =
      ⟨["/login"], some ⟨"GET", "/dropship/enterprises/" ++ a.code,
        [("Content-Type", "application/json"),
         ("Authorization", "Bearer null")]⟩⟩ ∧
    runOp ApiOp.dsCreateEnterprise s a =
      ⟨["/login"], some ⟨"POST", "/dropship/enterprises/",
        [("Content-Type", "application/json"),
         ("Authorization", "Bearer null")]⟩⟩ ∧
    runOp ApiOp.dsUpdateEnterprise s a =
      ⟨["/login"], some ⟨"PUT", "/dropship/enterprises/" ++ a.code,
        [("Content-Type", "application/json"),
         ("Authorization", "Bearer null")]⟩⟩ ∧
    runOp ApiOp.devGetDataFormats s a =
      ⟨["/login"], some ⟨"GET", "/data_formats", []⟩⟩ ∧
    runOp ApiOp.devAddDataFormat s a =
      ⟨["/login"], some ⟨"POST", "/data_formats", []⟩⟩ ∧
    (∀ l, s.userLogin = some l → l ≠ "" →
      runOp ApiOp.devGetSetting s a =
        ⟨["/login"], some ⟨"GET", "/developer/settings/" ++ l, []⟩⟩ ∧
      (a.data ≠ [] →
        runOp ApiOp.devUpdateSetting s a =
          ⟨["/login"], some ⟨"PUT", "/developer/settings/" ++ l, []⟩⟩) ∧
      (a.data = [] →
        runOp ApiOp.devUpdateSetting s a = ⟨[], none⟩)) ∧
    (strFalsy s.userLogin = true →
      runOp ApiOp.devGetSetting s a = ⟨["/login"], none⟩ ∧
      runOp ApiOp.devUpdateSetting s a = ⟨["/login"], none⟩) := by
  refine ⟨?_, ?_, ?_, ?_, ?_, ?_, ?_, ?_, ?_⟩
  · simp [runOp, mb_getAuthHeaders, hnone, strFalsy, itemToString]
  · simp [runOp, ds_getAuthHeaders, hnone, strFalsy, itemToString]
  · simp [runOp, ds_getAuthHeaders, hnone, strFalsy, itemToString]
  · simp [runOp, ds_getAuthHeaders, hnone, strFalsy, itemToString]
  · simp [runOp, ds_getAuthHeaders, hnone, strFalsy, itemToString]
  · simp [runOp, dev_getAuthHeaders, dev_getAuthToken, hnone, strFalsy]
  · simp [runOp, dev_getAuthHeaders, dev_getAuthToken, hnone, strFalsy]
  · intro l hl hlne
    refine ⟨?_, ?_, ?_⟩
    · simp [runOp, dev_getAuthHeaders, dev_getAuthToken, hnone, hl, hlne,
        strFalsy, itemToString]
    · intro hdata
      simp [runOp, dev_getAuthHeaders, dev_getAuthToken, hnone, hl, hlne,
        hdata, strFalsy, itemToString]
    · intro hdata
      simp [runOp, hl, hlne, hdata, strFalsy]
  · intro hl
    constructor
    · simp [runOp, hl]
    · simp [runOp, hl]

theorem C9_amended_witness :
    runOp ApiOp.mbCreateMappingBranch ⟨none, some "dev"⟩ ⟨"", []⟩ =
      ⟨["/login"], some ⟨"POST", "/mapping_branch/",
        [("Content-Type", "application/json"),
         ("Authorization", "Bearer null")]⟩⟩ ∧
    runOp ApiOp.devGetSetting ⟨none, some "dev"⟩ ⟨"", []⟩ =
      ⟨["/login"], some ⟨"GET", "/developer/settings/" ++ "dev", []⟩⟩ := by
  have h := C9_amended ⟨none, some "dev"⟩ ⟨"", []⟩ rfl
  exact ⟨h.1, (h.2.2.2.2.2.2.2.1 "dev" rfl (by decide)).1⟩

/-! ## Logout functions and the login page -/

/-- `developerApi.logout`: `removeItem("token")`, `removeItem("user_login")`,
then `window.location.href = "/login"`.  Returns the new storage and the
location assignments. -/
def dev_logout (s : Storage) : Storage × List String :=
  ({ s with token := none, userLogin := none }, ["/login"])

/-- `mappingBranchAPI.logout`: `removeItem("token")` only, then
`window.location.reload()`.  Returns the new storage and whether a reload
was forced. -/
def mb_logout (s : Storage) : Storage × Bool :=
  ({ s with token := none }, true)

/-- Claim C4 as stated: every exported logout removes both durable keys. -/
def C4_statement : Prop :=
  ∀ s : Storage,
    (dev_logout s).1.token = none ∧ (dev_logout s).1.userLogin = none ∧
    (mb_logout s).1.token = none ∧ (mb_logout s).1.userLogin = none

/-- Claim C4 fails: `mappingBranchAPI.logout` leaves "user_login" stored —
on a storage holding token "tok" and login "dev" it produces a storage
still holding login "dev". -/
theorem C4_counterexample :
    (mb_logout ⟨some "tok", some "dev"⟩).1.userLogin = some "dev" ∧
    ¬ C4_statement := by
  constructor
  · rfl
  · intro h
    have := (h ⟨some "tok", some "dev"⟩).2.2.2
    simp [mb_logout] at this

/-- Claim C4 amended: `developerApi.logout` removes both keys and assigns
the `/login` redirect; `mappingBranchAPI.logout` removes only "token",
leaving "user_login" stored, and forces a page reload (the reload drops
the in-memory session, so the UI still returns to the unauthenticated
view). -/
theorem C4_logout_amended (s : Storage) :
    dev_logout s = (⟨none, none⟩, ["/login"]) ∧
    (mb_logout s).1 = ⟨none, s.userLogin⟩ ∧
    (mb_logout s).2 = true := by
  refine ⟨rfl, rfl, rfl⟩

/-! ## Login page (src/pages/Login.js) -/

/-- The client-side application state touched by `Login.handleLogin`:
durable storage, the in-memory `authUser` object (the login response
data), the `error` message state, and the current route. -/
structure AppSession where
  storage : Storage
  authUser : Option ValueMap
  error : String
  route : String
deriving DecidableEq

/-- Outcome of `axios.post(API_BASE_URL ++ "/login/", credentials)`:
a 2xx response with its JSON body, a non-2xx response with its status and
optional `detail` payload (`err.response` present), or a network failure
(`err.response` absent). -/
inductive LoginOutcome where
  | ok (responseData : ValueMap)
  | httpErr (status : Nat) (detail : Option String)
  | netErr
deriving DecidableEq

/-- The generic error message of the non-401 branch. -/
def loginGenericMsg : String := "Произошла ошибка. Попробуйте позже."

/-- `Login.handleLogin`: on success store `access_token` under "token" and
the entered login under "user_login", set `authUser` to the response data
and navigate to "/developer"; on a 401 set a fixed invalid-credentials
message; on another HTTP error set `detail || generic`; on a network
failure set a fixed connectivity message.  No error branch touches
storage, `authUser` or the route. -/
def handleLogin (st : AppSession) (login password : String)
    (outcome : LoginOutcome) : AppSession :=
  match outcome with
  | LoginOutcome.ok data =>
      { st with
          storage := { token := some (jsToString (getProp data "access_token")),
                       userLogin := some login },
          authUser := some data,
          route := "/developer" }
  | LoginOutcome.httpErr status detail =>
      { st with
          error :=
            if status = 401 then "Неверный логин или пароль."
            else
              match detail with
              | some d => if d = "" then loginGenericMsg else d
              | none => loginGenericMsg }
  | LoginOutcome.netErr =>
      { st with error := "Не удалось подключиться к серверу." }

/-- Claim C3 as stated: accepted credentials store the token and login and
transition to the authenticated view; rejected credentials leave both
storage keys untouched, leave the session unset, and display the server's
rejection message. -/
def C3_statement : Prop :=
  (∀ st login password data,
    (handleLogin st login password (LoginOutcome.ok data)).storage =
      ⟨some (jsToString (getProp data "access_token")), some login⟩ ∧
    (handleLogin st login password (LoginOutcome.ok data)).authUser =
      some data ∧
    (handleLogin st login password (LoginOutcome.ok data)).route =
      "/developer") ∧
  (∀ st login password status detail,
    (handleLogin st login password
        (LoginOutcome.httpErr status detail)).storage = st.storage ∧
    (handleLogin st login password
        (LoginOutcome.httpErr status detail)).authUser = st.authUser ∧
    ∀ d, detail = some d →
      (handleLogin st login password
          (LoginOutcome.httpErr status detail)).error = d)

/-- Claim C3 fails on the rejection message: on a 401 whose server detail
is "Invalid credentials", the code displays its own fixed message
"Неверный логин или пароль.", not the server's. -/
theorem C3_counterexample : ¬ C3_statement := by
  intro h
  have := (h.2 ⟨⟨none, none⟩, none, "", "/"⟩ "u" "p" 401
    (some "Invalid credentials")).2.2 "Invalid credentials" rfl
  simp [handleLogin] at this

/-- Claim C3 amended: accepted credentials store the returned
`access_token` under "token" and the entered login under "user_login",
set the in-memory session to the response data and navigate to the
authenticated view; rejected credentials leave storage, session and route
untouched and display a rejection message — the fixed invalid-credentials
text when the status is 401, otherwise the server's `detail` (or a generic
message when it is absent or empty), and a fixed connectivity message when
no response arrived at all. -/
theorem C3_login_amended (st : AppSession) (login password : String) :
    (∀ data,
      handleLogin st login password (LoginOutcome.ok data) =
        { st with
            storage := ⟨some (jsToString (getProp data "access_token")),
                        some login⟩,
            authUser := some data,
            route := "/developer" }) ∧
    (∀ status detail,
      (handleLogin st login password
          (LoginOutcome.httpErr status detail)).storage = st.storage ∧
      (handleLogin st login password
          (LoginOutcome.httpErr status detail)).authUser = st.authUser ∧
      (handleLogin st login password
          (LoginOutcome.httpErr status detail)).route = st.route ∧
      (status = 401 →
        (handleLogin st login password
            (LoginOutcome.httpErr status detail)).error =
          "Неверный логин или пароль.") ∧
      (status ≠ 401 → ∀ d, detail = some d → d ≠ "" →
        (handleLogin st login password
            (LoginOutcome.httpErr status detail)).error = d) ∧
      (status ≠ 401 → detail = some "" →
        (handleLogin st login password
            (LoginOutcome.httpErr status detail)).error = loginGenericMsg) ∧
      (status ≠ 401 → detail = none →
        (handleLogin st login password
            (LoginOutcome.httpErr status detail)).error = loginGenericMsg)) ∧
    (handleLogin st login password LoginOutcome.netErr).storage = st.storage ∧
    (handleLogin st login password LoginOutcome.netErr).authUser =
      st.authUser ∧
    (handleLogin st login password LoginOutcome.netErr).route = st.route ∧
    (handleLogin st login password LoginOutcome.netErr).error =
      "Не удалось подключиться к серверу." := by
  refine ⟨fun data => rfl, ?_, rfl, rfl, rfl, rfl⟩
  intro status detail
  refine ⟨rfl, rfl, rfl, ?_, ?_, ?_, ?_⟩
  · intro h
    simp [handleLogin, h]
  · intro h d hd hne
    simp [handleLogin, h, hd, hne]
  · intro h hd
    simp [handleLogin, h, hd]
  · intro h hd
    simp [handleLogin, h, hd]

theorem C3_login_amended_witness :
    (handleLogin ⟨⟨none, none⟩, none, "", "/"⟩ "dev" "pw"
        (LoginOutcome.ok [("access_token", JsValue.vStr "tok")])).storage =
      ⟨some "tok", some "dev"⟩ ∧
    (handleLogin ⟨⟨none, none⟩, none, "", "/"⟩ "dev" "pw"
        (LoginOutcome.httpErr 401 (some "bad"))).error =
      "Неверный логин или пароль." ∧
    (handleLogin ⟨⟨none, none⟩, none, "", "/"⟩ "dev" "pw"
        (LoginOutcome.httpErr 500 (some "boom"))).error = "boom" ∧
    (handleLogin ⟨⟨none, none⟩, none, "", "/"⟩ "dev" "pw"
        (LoginOutcome.httpErr 500 (some ""))).error = loginGenericMsg ∧
    (handleLogin ⟨⟨none, none⟩, none, "", "/"⟩ "dev" "pw"
        LoginOutcome.netErr).route = "/" := by
  have h := C3_login_amended ⟨⟨none, none⟩, none, "", "/"⟩ "dev" "pw"
  refine ⟨?_, ?_, ?_, ?_, ?_⟩
  · have h1 := h.1 [("access_token", JsValue.vStr "tok")]
    rw [h1]
    rfl
  · exact (h.2.1 401 (some "bad")).2.2.2.1 rfl
  · exact (h.2.1 500 (some "boom")).2.2.2.2.1 (by decide) "boom" rfl (by decide)
  · exact (h.2.1 500 (some "")).2.2.2.2.2.1 (by decide) rfl
  · exact h.2.2.2.2.1

/-! ## Route guard (src/App.js) -/

/-- Result of rendering a route element: the element itself, or a
`<Navigate to=.../>` redirect. -/
inductive RouteResult (α : Type) where
  | render (element : α)
  | navigate (target : String)
deriving DecidableEq

/-- `App.PrivateRoute`: `authUser ? element : <Navigate to="/" />`.  The
durable storage is in scope (via `localStorage`) but never read; it is
passed here explicitly so the independence of the decision from it is a
statement, not an axiom. -/
def privateRoute {α : Type} (authUser : Option ValueMap) (storage : Storage)
    (element : α) : RouteResult α :=
  match authUser, storage with
  | some _, _ => RouteResult.render element
  | none, _ => RouteResult.navigate "/"

/-- Claim C8: the render-vs-redirect decision of every protected route is
a function of the in-memory `authUser` alone — two runs with the same
`authUser` and arbitrary different storage contents (token included)
decide identically — and with `authUser` unset the route redirects even
when a valid token is stored. -/
theorem C8_route_guard {α : Type} (authUser : Option ValueMap)
    (s1 s2 : Storage) (element : α) :
    (privateRoute authUser s1 element = privateRoute authUser s2 element) ∧
    (∀ t, s1.token = some t →
      privateRoute (none : Option ValueMap) s1 element =
        RouteResult.navigate "/") := by
  constructor
  · cases authUser <;> rfl
  · intro t ht
    rfl

theorem C8_route_guard_witness :
    (privateRoute (none : Option ValueMap) ⟨some "valid-token", some "dev"⟩
        (0 : Nat) =
      privateRoute (none : Option ValueMap) ⟨none, none⟩ (0 : Nat)) ∧
    (privateRoute (none : Option ValueMap) ⟨some "valid-token", some "dev"⟩
        (0 : Nat) = RouteResult.navigate "/") := by
  have h := C8_route_guard (none : Option ValueMap)
    ⟨some "valid-token", some "dev"⟩ ⟨none, none⟩ (0 : Nat)
  exact ⟨h.1, h.2 "valid-token" rfl⟩

/-! ## Entity panels (src/pages/EnterprisePanel.js, DropshipEnterprisePanel) -/

/-- The save/update request an entity panel submits: `PUT` keyed by the
panel's `originalCode` state when editing, `POST` of the payload when
creating. -/
inductive SaveReq where
  | update (code : JsValue) (data : ValueMap)
  | create (data : ValueMap)
deriving DecidableEq

/-- `EnterprisePanel` component state (the `useState` hooks). -/
structure EntPanelState where
  enterprises : List ValueMap
  filteredEnterprises : List ValueMap
  dataFormats : List ValueMap
  selectedEnterprise : Option ValueMap
  originalCode : JsValue
  isEditing : Bool
  log : List String
deriving DecidableEq

/-- The `data_format` filter applied after every enterprise fetch:
`data.filter(ent => ent.data_format && ent.data_format !== "Blank")`. -/
def entHasDataFormat (ent : ValueMap) : Bool :=
  truthy (getProp ent "data_format") &&
    !(getProp ent "data_format" == JsValue.vStr "Blank")

/-- Outcome trace of one `EnterprisePanel.handleSave` run. -/
structure PanelSaveTrace where
  state : EntPanelState
  saveReq : SaveReq
  refetched : Bool
deriving DecidableEq

/-- `EnterprisePanel.handleSave`: submit update-by-`originalCode` when
editing, else create; on success re-fetch the list, re-filter it and clear
selection, original code and editing flag; on failure (of either await)
only log — the `catch` changes no panel state and, when the save call
itself rejected, the re-fetch is never issued. -/
def ent_handleSave (st : EntPanelState) (enterpriseData : ValueMap)
    (saveResult : Except String Unit)
    (refetchResult : Except String (List ValueMap)) : PanelSaveTrace :=
  let req := if st.isEditing then SaveReq.update st.originalCode enterpriseData
             else SaveReq.create enterpriseData
  match saveResult with
  | Except.error e =>
      ⟨{ st with log := st.log ++ ["Error saving enterprise: " ++ e] },
        req, false⟩
  | Except.ok _ =>
      match refetchResult with
      | Except.error e =>
          ⟨{ st with log := st.log ++ ["Error saving enterprise: " ++ e] },
            req, true⟩
      | Except.ok data =>
          ⟨{ st with
              enterprises := data,
              filteredEnterprises := data.filter entHasDataFormat,
              selectedEnterprise := none,
              originalCode := JsValue.vNull,
              isEditing := false },
            req, true⟩

/-- The `enterprise-select` `onChange` handler of `EnterprisePanel`: find
the record whose `enterprise_code` strictly equals the selected value, set
it (or `null`) as selection, retain `enterprise?.enterprise_code || null`
as `originalCode`, and set editing iff a record was found. -/
def ent_selectEnterprise (st : EntPanelState) (selectedCode : String) :
    EntPanelState :=
  let enterprise := st.enterprises.find?
    (fun ent => getProp ent "enterprise_code" == JsValue.vStr selectedCode)
  { st with
      selectedEnterprise := enterprise,
      originalCode :=
        match enterprise with
        | some e => jsOr (getProp e "enterprise_code") JsValue.vNull
        | none => JsValue.vNull,
      isEditing := enterprise.isSome }

/-- `DropshipEnterprisePanel` component state (src/unnamed/part_000). -/
structure DsPanelState where
  items : List ValueMap
  activeOnly : Bool
  filtered : List ValueMap
  selected : Option ValueMap
  originalCode : JsValue
  isEditing : Bool
  log : List String
deriving DecidableEq

/-- The dropship filter effect: `activeOnly ? items.filter(x =>
x.is_active) : items`, recomputed when `items` changes. -/
def dsFilter (items : List ValueMap) (activeOnly : Bool) : List ValueMap :=
  if activeOnly then items.filter (fun x => truthy (getProp x "is_active"))
  else items

/-- Outcome trace of one `DropshipEnterprisePanel.handleSave` run. -/
structure DsSaveTrace where
  state : DsPanelState
  saveReq : SaveReq
  refetched : Bool
deriving DecidableEq

/-- `DropshipEnterprisePanel.handleSave`: same shape as the enterprise
panel — update by `originalCode` when editing else create, then re-fetch
and clear; any rejection reaches the single `catch`, which only logs (the
filter effect does not re-run since `items` is unchanged). -/
def ds_handleSave (st : DsPanelState) (data : ValueMap)
    (saveResult : Except String Unit)
    (refetchResult : Except String (List ValueMap)) : DsSaveTrace :=
  let req := if st.isEditing then SaveReq.update st.originalCode data
             else SaveReq.create data
  match saveResult with
  | Except.error e =>
      ⟨{ st with log := st.log ++ ["Error saving dropship enterprise: " ++ e] },
        req, false⟩
  | Except.ok _ =>
      match refetchResult with
      | Except.error e =>
          ⟨{ st with
              log := st.log ++ ["Error saving dropship enterprise: " ++ e] },
            req, true⟩
      | Except.ok refreshed =>
          ⟨{ st with
              items := refreshed,
              filtered := dsFilter refreshed st.activeOnly,
              selected := none,
              originalCode := JsValue.vNull,
              isEditing := false },
            req, true⟩

/-- Claim C5: when the create/update call rejects, both panels keep their
entire state except the console log — selection with the user's edits,
original key and editing flag are unchanged — and no list re-fetch and no
selection clearing happens. -/
theorem C5_save_failure_atomic (data : ValueMap) (e : String)
    (refetch : Except String (List ValueMap)) (st : EntPanelState)
    (ds : DsPanelState) :
    ((ent_handleSave st data (Except.error e) refetch).state.selectedEnterprise
        = st.selectedEnterprise ∧
      (ent_handleSave st data (Except.error e) refetch).state.originalCode
        = st.originalCode ∧
      (ent_handleSave st data (Except.error e) refetch).state.isEditing
        = st.isEditing ∧
      (ent_handleSave st data (Except.error e) refetch).state.enterprises
        = st.enterprises ∧
      (ent_handleSave st data (Except.error e) refetch).state.filteredEnterprises
        = st.filteredEnterprises ∧
      (ent_handleSave st data (Except.error e) refetch).state.dataFormats
        = st.dataFormats ∧
      (ent_handleSave st data (Except.error e) refetch).refetched = false ∧
      (ent_handleSave st data (Except.error e) refetch).state.log
        = st.log ++ ["Error saving enterprise: " ++ e]) ∧
    ((ds_handleSave ds data (Except.error e) refetch).state.selected
        = ds.selected ∧
      (ds_handleSave ds data (Except.error e) refetch).state.originalCode
        = ds.originalCode ∧
      (ds_handleSave ds data (Except.error e) refetch).state.isEditing
        = ds.isEditing ∧
      (ds_handleSave ds data (Except.error e) refetch).state.items
        = ds.items ∧
      (ds_handleSave ds data (Except.error e) refetch).state.filtered
        = ds.filtered ∧
      (ds_handleSave ds data (Except.error e) refetch).refetched = false ∧
      (ds_handleSave ds data (Except.error e) refetch).state.log
        = ds.log ++ ["Error saving dropship enterprise: " ++ e]) := by
  refine ⟨⟨rfl, rfl, rfl, rfl, rfl, rfl, rfl, rfl⟩,
    rfl, rfl, rfl, rfl, rfl, rfl, rfl⟩

/-- Claim C6: in editing mode a successful save submits the update keyed
by the `originalCode` captured at selection time — whatever key value sits
inside the submitted map — then re-fetches the list, installs it, and
clears selection, original key and editing flag, returning the panel to
the list view; and selection itself records the found record's
`enterprise_code` as `originalCode`. -/
theorem C6_save_success (st : EntPanelState) (ds : DsPanelState)
    (data : ValueMap) (newList : List ValueMap) :
    (st.isEditing = true →
      (ent_handleSave st data (Except.ok ()) (Except.ok newList)).saveReq
        = SaveReq.update st.originalCode data ∧
      (ent_handleSave st data (Except.ok ()) (Except.ok newList)).state.selectedEnterprise
        = none ∧
      (ent_handleSave st data (Except.ok ()) (Except.ok newList)).state.originalCode
        = JsValue.vNull ∧
      (ent_handleSave st data (Except.ok ()) (Except.ok newList)).state.isEditing
        = false ∧
      (ent_handleSave st data (Except.ok ()) (Except.ok newList)).state.enterprises
        = newList ∧
      (ent_handleSave st data (Except.ok ()) (Except.ok newList)).state.filteredEnterprises
        = newList.filter entHasDataFormat ∧
      (ent_handleSave st data (Except.ok ()) (Except.ok newList)).refetched
        = true) ∧
    (∀ selCode ent,
      (ent_selectEnterprise st selCode).selectedEnterprise = some ent →
      (ent_selectEnterprise st selCode).originalCode
          = jsOr (getProp ent "enterprise_code") JsValue.vNull ∧
        (ent_selectEnterprise st selCode).isEditing = true) ∧
    (ds.isEditing = true →
      (ds_handleSave ds data (Except.ok ()) (Except.ok newList)).saveReq
        = SaveReq.update ds.originalCode data ∧
      (ds_handleSave ds data (Except.ok ()) (Except.ok newList)).state.selected
        = none ∧
      (ds_handleSave ds data (Except.ok ()) (Except.ok newList)).state.originalCode
        = JsValue.vNull ∧
      (ds_handleSave ds data (Except.ok ()) (Except.ok newList)).state.isEditing
        = false ∧
      (ds_handleSave ds data (Except.ok ()) (Except.ok newList)).state.items
        = newList ∧
      (ds_handleSave ds data (Except.ok ()) (Except.ok newList)).refetched
        = true) := by
  refine ⟨?_, ?_, ?_⟩
  · intro h
    refine ⟨?_, rfl, rfl, rfl, rfl, rfl, rfl⟩
    simp [ent_handleSave, h]
  · intro selCode ent hfound
    have hsel :
        (st.enterprises.find? (fun x =>
          getProp x "enterprise_code" == JsValue.vStr selCode)) = some ent := by
      simpa [ent_selectEnterprise] using hfound
    constructor
    · simp [ent_selectEnterprise, hsel]
    · simp [ent_selectEnterprise, hsel]
  · intro h
    refine ⟨?_, rfl, rfl, rfl, rfl, rfl⟩
    simp [ds_handleSave, h]

theorem C6_save_success_witness :
    (ent_handleSave
        ⟨[[("enterprise_code", JsValue.vStr "E1")]], [], [],
          some [("enterprise_code", JsValue.vStr "E2")],
          JsValue.vStr "E1", true, []⟩
        [("enterprise_code", JsValue.vStr "E2")]
        (Except.ok ()) (Except.ok [])).saveReq
      = SaveReq.update (JsValue.vStr "E1")
          [("enterprise_code", JsValue.vStr "E2")] ∧
    (ent_handleSave
        ⟨[[("enterprise_code", JsValue.vStr "E1")]], [], [],
          some [("enterprise_code", JsValue.vStr "E2")],
          JsValue.vStr "E1", true, []⟩
        [("enterprise_code", JsValue.vStr "E2")]
        (Except.ok ()) (Except.ok [])).state.isEditing = false := by
  have h := (C6_save_success
    ⟨[[("enterprise_code", JsValue.vStr "E1")]], [], [],
      some [("enterprise_code", JsValue.vStr "E2")],
      JsValue.vStr "E1", true, []⟩
    ⟨[], false, [], none, JsValue.vNull, false, []⟩
    [("enterprise_code", JsValue.vStr "E2")] []).1 rfl
  exact ⟨h.1, h.2.2.2.1⟩
